import Mathlib

set_option linter.unusedVariables false

/-! Shallow embedding of dubbo-go's DubboInvoker (package dubbo) and of the
zookeeper / apollo dynamic-configuration backends (package config_center),
with theorems checking the specification's claims against them.

Machine integers are modelled as Int / Nat; Go byte strings as List Nat
(each element < 256); Go maps as association lists where a cons models an
overwriting write and List.lookup reads the most recent binding. -/

/-- Association-list update, modelling a Go map write: `List.lookup` finds the
most recent binding first, so consing models overwrite. -/
def mapSet (m : List (String × String)) (k v : String) : List (String × String) :=
  (k, v) :: m

/-- Target URL: location (host:port) plus string parameters (common.URL). -/
structure URL where
  location : String
  params : List (String × String)
deriving Repr, DecidableEq

/-- Modelled from the spec: common.URL.GetParam — the parameter's value, or
the default when the parameter is absent or empty. -/
def URL.getParam (u : URL) (k d : String) : String :=
  let r := (u.params.lookup k).getD ""
  if r.length = 0 then d else r

/-- Modelled from the spec: common.URL.SetParam — overwrite one parameter. -/
def URL.setParam (u : URL) (k v : String) : URL :=
  { u with params := mapSet u.params k v }

/-- strconv.ParseBool: accepts 1, t, T, TRUE, true, True as true and
0, f, F, FALSE, false, False as false; everything else is a parse error,
modelled as none (Go additionally returns false as the value then). -/
def strconvParseBool (s : String) : Option Bool :=
  if s = "1" ∨ s = "t" ∨ s = "T" ∨ s = "TRUE" ∨ s = "true" ∨ s = "True" then some true
  else if s = "0" ∨ s = "f" ∨ s = "F" ∨ s = "FALSE" ∨ s = "false" ∨ s = "False" then
    some false
  else none

/-- Modelled from the spec: common.URL.GetParamBool — the parameter parsed as
a boolean, or the default when it is absent or fails to parse. -/
def URL.getParamBool (u : URL) (k : String) (d : Bool) : Bool :=
  let r := u.getParam k ""
  if r.length = 0 then d else (strconvParseBool r).getD d

/-- Modelled from the spec: the reserved attachment / parameter keys of
common/constant used by the invoker (interface path, group, token, timeout,
version, serialization, async flag, generic flag, method-key prefix). -/
def PATH_KEY : String := "path"

def INTERFACE_KEY : String := "interface"

def GROUP_KEY : String := "group"

def TOKEN_KEY : String := "token"

def TIMEOUT_KEY : String := "timeout"

def VERSION_KEY : String := "version"

def SERIALIZATION_KEY : String := "serialization"

def ASYNC_KEY : String := "async"

def GENERIC_KEY : String := "generic"

def METHOD_KEYS : String := "methods"

def HESSIAN2_SERIALIZATION : String := "hessian2"

/-- The fixed allow-list of URL parameters copied into attachments
(var attachmentKey in the source). -/
def attachmentKey : List String :=
  [INTERFACE_KEY, GROUP_KEY, TOKEN_KEY, TIMEOUT_KEY, VERSION_KEY]

/-- The reply slot of an invocation: a Go nil pointer, a non-nil but not yet
written-through pointer, or a pointer whose target the transport populated. -/
inductive ReplySlot where
  | nil
  | unpopulated
  | populated (v : String)
deriving Repr, DecidableEq

/-- invocation.RPCInvocation: method name, arguments (only ever read as
strings by this core), attachments, reply slot, and whether a callback of the
expected type func(common.CallbackResponse) is registered (the result of the
source's type assertion on CallBack()). -/
structure RPCInvocation where
  methodName : String
  arguments : List String
  attachments : List (String × String)
  reply : ReplySlot
  callbackTyped : Bool
deriving Repr, DecidableEq

/-- RPCInvocation.SetAttachments. -/
def RPCInvocation.setAttachments (inv : RPCInvocation) (k v : String) : RPCInvocation :=
  { inv with attachments := mapSet inv.attachments k v }

/-- RPCInvocation.AttachmentsByKey: the attachment's value, or the default
when the key is absent. -/
def RPCInvocation.attachmentsByKey (inv : RPCInvocation) (k d : String) : String :=
  match inv.attachments.lookup k with
  | some v => v
  | none => d

/-- DubboInvoker's immutable per-invoker data: the target URL and the
service-level timeout computed at construction. The mutable client reference,
the read/write lock and the sync.Once guard are modelled as explicit state
threaded through Invoke and Destroy. Durations are Int nanoseconds. -/
structure DubboInvoker where
  url : URL
  timeout : Int
deriving Repr, DecidableEq

/-- Modelled from the spec: common.URL.GetParamDuration — the consumer-level
default `d`, overridden when the URL carries parameter `k` and it parses as a
duration (time.ParseDuration is abstracted as `pd`). -/
def URL.getParamDuration (pd : String → Option Int) (u : URL) (k : String) (d : Int) : Int :=
  match pd (u.getParam k "") with
  | some t => t
  | none => d

/-- NewDubboInvoker: the service-level timeout is the consumer default `rt`
overridden by the URL's timeout parameter. -/
def NewDubboInvoker (pd : String → Option Int) (url : URL) (rt : Int) : DubboInvoker :=
  { url := url, timeout := URL.getParamDuration pd url TIMEOUT_KEY rt }

/-- time.Duration.Milliseconds(): nanoseconds divided by 1e6, truncating
toward zero as Go integer division does. -/
def timeMilliseconds (t : Int) : Int := Int.tdiv t 1000000

/-- DubboInvoker.getTimeout: resolve the per-call timeout from the
methods.<name>.timeout URL parameter, falling back to the service-level
timeout; record the resolved value (milliseconds, decimal string) into the
invocation's attachments. Returns the resolved duration and the updated
invocation. Under the generic flag the method name is the first argument
(the source casts Arguments()[0] unchecked; an empty argument list panics in
Go and is modelled as the empty string, a path no claim touches). -/
def DubboInvoker.getTimeout (pd : String → Option Int) (di : DubboInvoker)
    (inv : RPCInvocation) : Int × RPCInvocation :=
  let methodName :=
    if di.url.getParamBool GENERIC_KEY false then
      match inv.arguments with
      | a :: _ => a
      | [] => ""
    else inv.methodName
  let timeoutStr := di.url.getParam (METHOD_KEYS ++ "." ++ methodName ++ "." ++ TIMEOUT_KEY) ""
  if timeoutStr.length ≠ 0 then
    match pd timeoutStr with
    | some t => (t, inv.setAttachments TIMEOUT_KEY (toString (timeMilliseconds t)))
    | none =>
      (di.timeout, inv.setAttachments TIMEOUT_KEY (toString (timeMilliseconds di.timeout)))
  else
    (di.timeout, inv.setAttachments TIMEOUT_KEY (toString (timeMilliseconds di.timeout)))

/-- The errors a DubboInvoker.Invoke result can carry: the three protocol
errors plus transport-layer errors passed through unmodified. -/
inductive InvokeErr where
  | destroyedInvoker
  | clientClosed
  | noReply
  | transport (msg : String)
deriving Repr, DecidableEq

/-- Which Exchange Client primitive Invoke handed the call to. -/
inductive DispatchOp where
  | asyncRequest
  | send
  | request
deriving Repr, DecidableEq

/-- Modelled from the spec: the bound remoting.ExchangeClient's behaviour for
one dispatch — what each transport primitive would return (none = success),
and the value a successful blocking Request writes through the reply slot.
The transport is outside this core; its outcomes are passed through. -/
structure ClientBehavior where
  asyncRequestErr : Option String
  sendErr : Option String
  requestErr : Option String
  requestReply : String
deriving Repr, DecidableEq

/-- Everything observable about one Invoke call: the result's error and rest
(reply payload), which client primitive was dispatched (none = the client was
never touched), the reply slot's state afterwards, the invocation's
attachments afterwards, and the URL as possibly updated by the serialization
default. -/
structure InvokeOutcome where
  err : Option InvokeErr
  rest : ReplySlot
  dispatched : Option DispatchOp
  replyAfter : ReplySlot
  attachmentsAfter : List (String × String)
  urlUsed : URL
deriving Repr, DecidableEq

/-- The attachment-population stage of Invoke: the path attachment from the
URL's interface parameter, the allow-list copy of URL parameters, then the
pairs the tracing hook injects from the call context. -/
def DubboInvoker.populateAttachments (di : DubboInvoker) (ctxAttach : List (String × String))
    (inv : RPCInvocation) : RPCInvocation :=
  let inv1 := inv.setAttachments PATH_KEY (di.url.getParam INTERFACE_KEY "")
  let inv2 := attachmentKey.foldl
    (fun acc k =>
      if (di.url.getParam k "").length > 0 then acc.setAttachments k (di.url.getParam k "")
      else acc) inv1
  ctxAttach.foldl (fun acc p => acc.setAttachments p.1 p.2) inv2

/-- The async-flag read of Invoke: the async attachment parsed as a boolean,
defaulting to false when absent; a parse failure is logged and treated as
false. -/
def asyncFlag (inv : RPCInvocation) : Bool :=
  (strconvParseBool (inv.attachmentsByKey ASYNC_KEY "false")).getD false

/-- The serialization-defaulting step of Invoke: when the URL carries no
serialization parameter, set the default hessian2 codec identifier. -/
def DubboInvoker.serializedUrl (di : DubboInvoker) : URL :=
  if (di.url.getParam SERIALIZATION_KEY "").length = 0 then
    di.url.setParam SERIALIZATION_KEY HESSIAN2_SERIALIZATION
  else di.url

/-- The body of Invoke past the availability and nil-client guards: populate
attachments, default the serialization, read the async flag, resolve the
timeout, and dispatch to the matching Exchange Client primitive. -/
def DubboInvoker.invokeDispatch (pd : String → Option Int) (di : DubboInvoker)
    (cb : ClientBehavior) (ctxAttach : List (String × String))
    (inv : RPCInvocation) : InvokeOutcome :=
  let inv3 := di.populateAttachments ctxAttach inv
  let url := di.serializedUrl
  let async := asyncFlag inv3
  let tr := DubboInvoker.getTimeout pd { di with url := url } inv3
  let inv4 := tr.2
  let finish := fun (e : Option String) (op : DispatchOp) (replyAfter : ReplySlot) =>
    ({ err := Option.map InvokeErr.transport e
       rest := if e = none then replyAfter else ReplySlot.nil
       dispatched := some op
       replyAfter := replyAfter
       attachmentsAfter := inv4.attachments
       urlUsed := url } : InvokeOutcome)
  if async then
    if inv4.callbackTyped then finish cb.asyncRequestErr .asyncRequest inv4.reply
    else finish cb.sendErr .send inv4.reply
  else
    if inv4.reply = .nil then
      { err := some .noReply
        rest := .nil
        dispatched := none
        replyAfter := inv4.reply
        attachmentsAfter := inv4.attachments
        urlUsed := url }
    else
      finish cb.requestErr .request
        (if cb.requestErr = none then ReplySlot.populated cb.requestReply else inv4.reply)

/-- DubboInvoker.Invoke. Concurrency is sequentialized into an interleaving
trace: `avail1` is the BaseInvoker availability read before taking the client
read-lock, `clientSnap` the client reference read under the lock, `avail2`
the availability re-read under the lock (a concurrent Destroy may run between
the two reads). `ctxAttach` is the list of attachment pairs the tracing hook
injects from the call context (empty when no span is active; injection
failure is logged and injects nothing). `pd` abstracts time.ParseDuration. -/
def DubboInvoker.Invoke (pd : String → Option Int) (di : DubboInvoker)
    (avail1 : Bool) (clientSnap : Option ClientBehavior) (avail2 : Bool)
    (ctxAttach : List (String × String)) (inv : RPCInvocation) : InvokeOutcome :=
  if !avail1 then
    { err := some .destroyedInvoker
      rest := .nil
      dispatched := none
      replyAfter := inv.reply
      attachmentsAfter := inv.attachments
      urlUsed := di.url }
  else
    match clientSnap with
    | none =>
      { err := some .clientClosed
        rest := .nil
        dispatched := none
        replyAfter := inv.reply
        attachmentsAfter := inv.attachments
        urlUsed := di.url }
    | some cb =>
      if !avail2 then
        { err := some .destroyedInvoker
          rest := .nil
          dispatched := none
          replyAfter := inv.reply
          attachmentsAfter := inv.attachments
          urlUsed := di.url }
      else di.invokeDispatch pd cb ctxAttach inv

/-- Modelled from the spec: the remoting.ExchangeClient state Destroy touches —
the shared reference count (DecreaseActiveNumber atomically decrements it and
returns the new value) and whether Close has been called. -/
structure ExchangeClientState where
  activeNumber : Int
  closed : Bool
deriving Repr, DecidableEq

/-- The state DubboInvoker.Destroy reads and writes: the invoker's sync.Once
guard, its BaseInvoker destroyed flag, whether its client reference is still
bound (non-nil), the shared client's state, and whether exchangeClientMap
still holds the entry for the invoker's endpoint location. -/
structure DestroyState where
  quitOnceDone : Bool
  baseDestroyed : Bool
  clientBound : Bool
  clientState : ExchangeClientState
  poolHasEntry : Bool
deriving Repr, DecidableEq

/-- DubboInvoker.Destroy: under the sync.Once guard, mark the base invoker
destroyed, and if a client is bound decrement its reference count, detach it,
and when the decremented count is zero remove the pool entry and close the
client. -/
def DubboInvoker.Destroy (s : DestroyState) : DestroyState :=
  if s.quitOnceDone then s
  else
    let s1 := { s with quitOnceDone := true, baseDestroyed := true }
    if s1.clientBound then
      let n := s1.clientState.activeNumber - 1
      let s2 := { s1 with
                  clientBound := false
                  clientState := { s1.clientState with activeNumber := n } }
      if n = 0 then
        { s2 with
          poolHasEntry := false
          clientState := { s2.clientState with closed := true } }
      else s2
    else s1

/-- The ASCII codes of the standard base64 alphabet
A-Z, a-z, 0-9, plus, slash (encoding/base64 StdEncoding). -/
def b64Alphabet : List Nat :=
  [65, 66, 67, 68, 69, 70, 71, 72, 73, 74, 75, 76, 77, 78, 79, 80,
   81, 82, 83, 84, 85, 86, 87, 88, 89, 90,
   97, 98, 99, 100, 101, 102, 103, 104, 105, 106, 107, 108, 109, 110, 111, 112,
   113, 114, 115, 116, 117, 118, 119, 120, 121, 122,
   48, 49, 50, 51, 52, 53, 54, 55, 56, 57, 43, 47]

/-- The alphabet byte for a six-bit value. -/
def b64Code (s : Nat) : Nat := b64Alphabet.getD s 0

/-- The six-bit value of an alphabet byte, none for a byte outside the
alphabet (such as the padding byte 61, an equal sign). -/
def b64Idx (c : Nat) : Option Nat := b64Alphabet.findIdx? (fun x => x = c)

/-- encoding/base64 StdEncoding encoding over bytes: each 3-byte group maps
to 4 alphabet bytes; a 1- or 2-byte remainder is closed with padding (61). -/
def base64Encode : List Nat → List Nat
  | [] => []
  | [a] => [b64Code (a / 4), b64Code (a % 4 * 16), 61, 61]
  | [a, b] => [b64Code (a / 4), b64Code (a % 4 * 16 + b / 16), b64Code (b % 16 * 4), 61]
  | a :: b :: c :: rest =>
    b64Code (a / 4) :: b64Code (a % 4 * 16 + b / 16) :: b64Code (b % 16 * 4 + c / 64) ::
      b64Code (c % 64) :: base64Encode rest

/-- encoding/base64 StdEncoding decoding over bytes: the length must be a
multiple of 4 and padding may only close the final quantum; none models a
CorruptInputError (Go's default decoder does not reject non-zero trailing
bits, and neither does this model). -/
def base64Decode : List Nat → Option (List Nat)
  | [] => some []
  | c0 :: c1 :: c2 :: c3 :: rest =>
    match b64Idx c0, b64Idx c1 with
    | some s0, some s1 =>
      if c2 = 61 then
        if c3 = 61 ∧ rest = [] then some [s0 * 4 + s1 / 16] else none
      else
        match b64Idx c2 with
        | some s2 =>
          if c3 = 61 then
            if rest = [] then some [s0 * 4 + s1 / 16, s1 % 16 * 16 + s2 / 4] else none
          else
            match b64Idx c3 with
            | some s3 =>
              (base64Decode rest).map
                (fun tl =>
                  (s0 * 4 + s1 / 16) :: (s1 % 16 * 16 + s2 / 4) :: (s2 % 4 * 64 + s3) :: tl)
            | none => none
        | none => none
    | _, _ => none
  | _ => none

/-- zookeeperDynamicConfiguration's per-instance data used by the read/write
path: the namespace root path (set at construction) and the base64 flag. -/
structure ZkDynConfig where
  rootPath : String
  base64Enabled : Bool
deriving Repr, DecidableEq

/-- strings.LastIndex specialized to a one-character needle: the index of its
last occurrence, none when absent (Go returns -1 then). The keys involved are
ASCII, so byte indices and character indices coincide. -/
def lastIndexOfChar : List Char → Char → Option Nat
  | [], _ => none
  | a :: rest, c =>
    match lastIndexOfChar rest c with
    | some i => some (i + 1)
    | none => if a = c then some 0 else none

/-- The key-rewriting step of zookeeperDynamicConfiguration.GetProperties:
with a non-empty group option the fetched key is group/key; with no group the
key is split at its last dot into two segments. none models the Go panic:
strings.LastIndex yields -1 on a key with no dot, making key[0:-1] a
slice-bounds violation. -/
def zkResolveKey (group key : String) : Option String :=
  if group.length ≠ 0 then some (group ++ "/" ++ key)
  else
    match lastIndexOfChar key.toList '.' with
    | some i =>
      some (String.mk (key.toList.take i) ++ "/" ++ String.mk (key.toList.drop (i + 1)))
    | none => none

/-- The observable outcome of a backend get: a Go panic, an error return, or
a returned value. -/
inductive GetResult where
  | panic
  | err (msg : String)
  | ok (v : List Nat)
deriving Repr, DecidableEq

/-- zookeeperDynamicConfiguration.GetProperties, against a store mapping zk
paths to stored contents (client.GetContent errors on an absent path). After
key resolution the content at rootPath/key is fetched and, when the base64
flag is on, decoded. -/
def zkGetProperties (c : ZkDynConfig) (store : List (String × List Nat))
    (key group : String) : GetResult :=
  match zkResolveKey group key with
  | none => .panic
  | some k =>
    match store.lookup (c.rootPath ++ "/" ++ k) with
    | none => .err "path not found"
    | some content =>
      if !c.base64Enabled then .ok content
      else
        match base64Decode content with
        | none => .err "illegal base64 data"
        | some d => .ok d

/-- config_center.DEFAULT_GROUP. -/
def DEFAULT_GROUP : String := "dubbo"

/-- zookeeperDynamicConfiguration.buildPath. -/
def ZkDynConfig.buildPath (c : ZkDynConfig) (group : String) : String :=
  let g := if group.length = 0 then DEFAULT_GROUP else group
  c.rootPath ++ "/" ++ g

/-- zookeeperDynamicConfiguration.getPath. -/
def ZkDynConfig.getPath (c : ZkDynConfig) (key group : String) : String :=
  if key.length = 0 then c.buildPath group
  else c.buildPath group ++ "/" ++ key

/-- zookeeperDynamicConfiguration.PublishConfig: store (CreateWithValue) the
value bytes, base64-encoded when the flag is on, at getPath(key, group). -/
def zkPublishConfig (c : ZkDynConfig) (store : List (String × List Nat))
    (key group : String) (value : List Nat) : List (String × List Nat) :=
  (c.getPath key group, if c.base64Enabled then base64Encode value else value) :: store

/-- apolloConfiguration.PublishConfig: fails for every input with the
unsupported-operation error and leaves the configuration store untouched. -/
def apolloPublishConfig (configs : List (String × List Nat)) (key group value : String) :
    List (String × List Nat) × Option String :=
  (configs, some "unsupport operation")

/-- apolloConfiguration.GetProperties, against the agollo config cache
mapping namespace names to raw contents: an empty key falls back to the
configured namespace; a missing namespace or empty content is an error;
otherwise the first 8 bytes are removed unconditionally (the intended
content= prefix), which for contents of length 1 through 7 is the Go
slice-bounds panic of b[8:]. -/
def apolloGetProperties (namespaceName : String) (configs : List (String × List Nat))
    (key : String) : GetResult :=
  let k := if key = "" then namespaceName else key
  match configs.lookup k with
  | none => .err ("nothing in namespace:" ++ k ++ " ")
  | some content =>
    if content.length = 0 then .err ("nothing in namespace:" ++ k ++ " ")
    else if content.length < 8 then .panic
    else .ok (content.drop 8)

/-- A sample time.ParseDuration behaviour covering the spec's examples. -/
def pdSample : String → Option Int := fun s =>
  if s = "200ms" then some 200000000
  else if s = "5s" then some 5000000000
  else none

theorem foldl_setAttachments_reply (l : List (String × String)) (acc : RPCInvocation) :
    (l.foldl (fun a p => a.setAttachments p.1 p.2) acc).reply = acc.reply := by
  induction l generalizing acc with
  | nil => rfl
  | cons p t ih => exact ih _

theorem foldl_setAttachments_callback (l : List (String × String)) (acc : RPCInvocation) :
    (l.foldl (fun a p => a.setAttachments p.1 p.2) acc).callbackTyped = acc.callbackTyped := by
  induction l generalizing acc with
  | nil => rfl
  | cons p t ih => exact ih _

theorem foldl_copyParams_reply (di : DubboInvoker) (l : List String) (acc : RPCInvocation) :
    (l.foldl
      (fun a k =>
        if (di.url.getParam k "").length > 0 then a.setAttachments k (di.url.getParam k "")
        else a) acc).reply = acc.reply := by
  induction l generalizing acc with
  | nil => rfl
  | cons k t ih =>
    simp only [List.foldl_cons]
    rw [ih]
    split <;> rfl

theorem foldl_copyParams_callback (di : DubboInvoker) (l : List String) (acc : RPCInvocation) :
    (l.foldl
      (fun a k =>
        if (di.url.getParam k "").length > 0 then a.setAttachments k (di.url.getParam k "")
        else a) acc).callbackTyped = acc.callbackTyped := by
  induction l generalizing acc with
  | nil => rfl
  | cons k t ih =>
    simp only [List.foldl_cons]
    rw [ih]
    split <;> rfl

theorem populate_reply (di : DubboInvoker) (ca : List (String × String)) (inv : RPCInvocation) :
    (di.populateAttachments ca inv).reply = inv.reply := by
  unfold DubboInvoker.populateAttachments
  rw [foldl_setAttachments_reply, foldl_copyParams_reply]
  rfl

theorem populate_callback (di : DubboInvoker) (ca : List (String × String)) (inv : RPCInvocation) :
    (di.populateAttachments ca inv).callbackTyped = inv.callbackTyped := by
  unfold DubboInvoker.populateAttachments
  rw [foldl_setAttachments_callback, foldl_copyParams_callback]
  rfl

theorem getTimeout_records (pd : String → Option Int) (di : DubboInvoker)
    (inv : RPCInvocation) :
    (DubboInvoker.getTimeout pd di inv).2 =
      inv.setAttachments TIMEOUT_KEY
        (toString (timeMilliseconds (DubboInvoker.getTimeout pd di inv).1)) := by
  simp only [DubboInvoker.getTimeout]
  repeat' split
  all_goals rfl

theorem lastIndexOfChar_eq_none (l : List Char) (c : Char) (h : c ∉ l) :
    lastIndexOfChar l c = none := by
  induction l with
  | nil => rfl
  | cons a t ih =>
    simp only [List.mem_cons, not_or] at h
    unfold lastIndexOfChar
    rw [ih h.2, if_neg (fun hac => h.1 hac.symm)]

theorem b64Idx_b64Code : ∀ s, s < 64 → b64Idx (b64Code s) = some s := by decide

theorem b64Code_ne_61 : ∀ s, s < 64 → b64Code s ≠ 61 := by decide

theorem base64_decode_encode (bs : List Nat) (h : ∀ b ∈ bs, b < 256) :
    base64Decode (base64Encode bs) = some bs := by
  induction bs using base64Encode.induct with
  | case1 => rfl
  | case2 a =>
    have ha : a < 256 := h a (by simp)
    have i0 := b64Idx_b64Code (a / 4) (by omega)
    have i1 := b64Idx_b64Code (a % 4 * 16) (by omega)
    simp [base64Encode, base64Decode, i0, i1]
    omega
  | case3 a b =>
    have ha : a < 256 := h a (by simp)
    have hb : b < 256 := h b (by simp)
    have i0 := b64Idx_b64Code (a / 4) (by omega)
    have i1 := b64Idx_b64Code (a % 4 * 16 + b / 16) (by omega)
    have i2 := b64Idx_b64Code (b % 16 * 4) (by omega)
    have n2 := b64Code_ne_61 (b % 16 * 4) (by omega)
    simp [base64Encode, base64Decode, i0, i1, i2, n2]
    omega
  | case4 a b c rest ih =>
    have ha : a < 256 := h a (by simp)
    have hb : b < 256 := h b (by simp)
    have hc : c < 256 := h c (by simp)
    have ht : ∀ x ∈ rest, x < 256 := fun x hx => h x (by simp [hx])
    have i0 := b64Idx_b64Code (a / 4) (by omega)
    have i1 := b64Idx_b64Code (a % 4 * 16 + b / 16) (by omega)
    have i2 := b64Idx_b64Code (b % 16 * 4 + c / 64) (by omega)
    have i3 := b64Idx_b64Code (c % 64) (by omega)
    have n2 := b64Code_ne_61 (b % 16 * 4 + c / 64) (by omega)
    have n3 := b64Code_ne_61 (c % 64) (by omega)
    simp [base64Encode, base64Decode, i0, i1, i2, i3, n2, n3, ih ht]
    omega

theorem destroy_done_after (s : DestroyState) :
    (DubboInvoker.Destroy s).quitOnceDone = true := by
  simp only [DubboInvoker.Destroy]
  repeat' split
  all_goals simp_all

theorem destroy_of_done (s : DestroyState) (h : s.quitOnceDone = true) :
    DubboInvoker.Destroy s = s := by
  simp [DubboInvoker.Destroy, h]

theorem destroy_idem (s : DestroyState) :
    DubboInvoker.Destroy (DubboInvoker.Destroy s) = DubboInvoker.Destroy s :=
  destroy_of_done _ (destroy_done_after s)

/-- C1: In DubboInvoker.Invoke, when the invoker is unavailable at the first
check the result carries DestroyedInvokerError, nothing is dispatched, the
attachments are untouched, and the outcome does not depend on the client
snapshot or on the later availability read (the client is not touched); when
it is available but the client reference read under the lock is nil the
result carries ClientClosedError with nothing dispatched; and when the
re-check after the read-lock finds the invoker unavailable the result
carries DestroyedInvokerError with no attachment population and no
dispatch. -/
theorem invoke_fast_fail_order (pd : String → Option Int) (di : DubboInvoker)
    (cs cs2 : Option ClientBehavior) (av2 av2b : Bool)
    (ca : List (String × String)) (inv : RPCInvocation) (cb : ClientBehavior) :
    ((DubboInvoker.Invoke pd di false cs av2 ca inv).err = some InvokeErr.destroyedInvoker ∧
      (DubboInvoker.Invoke pd di false cs av2 ca inv).dispatched = none ∧
      (DubboInvoker.Invoke pd di false cs av2 ca inv).attachmentsAfter = inv.attachments ∧
      DubboInvoker.Invoke pd di false cs av2 ca inv =
        DubboInvoker.Invoke pd di false cs2 av2b ca inv) ∧
    ((DubboInvoker.Invoke pd di true none av2 ca inv).err = some InvokeErr.clientClosed ∧
      (DubboInvoker.Invoke pd di true none av2 ca inv).dispatched = none ∧
      (DubboInvoker.Invoke pd di true none av2 ca inv).attachmentsAfter = inv.attachments) ∧
    ((DubboInvoker.Invoke pd di true (some cb) false ca inv).err =
        some InvokeErr.destroyedInvoker ∧
      (DubboInvoker.Invoke pd di true (some cb) false ca inv).dispatched = none ∧
      (DubboInvoker.Invoke pd di true (some cb) false ca inv).attachmentsAfter =
        inv.attachments) :=
  ⟨⟨rfl, rfl, rfl, rfl⟩, ⟨rfl, rfl, rfl⟩, ⟨rfl, rfl, rfl⟩⟩

/-- C2: DubboInvoker.Destroy runs its cleanup body at most once: any number
of repeated calls equals a single call; on the one effective call with a
bound client the shared reference count is decremented exactly once (staying
non-negative when it was positive), the client reference is detached, and
the pool entry is removed and the client closed exactly when the decremented
count reached zero. -/
theorem destroy_exactly_once (s : DestroyState) (n : Nat) :
    (DubboInvoker.Destroy (DubboInvoker.Destroy s) = DubboInvoker.Destroy s) ∧
    (Nat.iterate DubboInvoker.Destroy (n + 1) s = DubboInvoker.Destroy s) ∧
    (s.quitOnceDone = false → s.clientBound = true →
      ((DubboInvoker.Destroy s).clientState.activeNumber =
          s.clientState.activeNumber - 1 ∧
        (DubboInvoker.Destroy s).clientBound = false ∧
        (DubboInvoker.Destroy s).baseDestroyed = true ∧
        (1 ≤ s.clientState.activeNumber →
          0 ≤ (DubboInvoker.Destroy s).clientState.activeNumber) ∧
        (s.poolHasEntry = true → s.clientState.closed = false →
          (((DubboInvoker.Destroy s).poolHasEntry = false ∧
              (DubboInvoker.Destroy s).clientState.closed = true) ↔
            s.clientState.activeNumber - 1 = 0)))) := by
  refine ⟨destroy_idem s, ?_, ?_⟩
  · induction n with
    | zero => rfl
    | succ k ih => rw [Function.iterate_succ_apply', ih, destroy_idem]
  · intro h1 h2
    simp [DubboInvoker.Destroy, h1, h2]
    split
    · simp_all
    · simp_all

/-- C2 witness: a fresh invoker state with reference count 1 destroys to
count 0, removing the pool entry and closing the client; destroying again
changes nothing. -/
theorem destroy_exactly_once_witness :
    (DubboInvoker.Destroy (DubboInvoker.Destroy ⟨false, false, true, ⟨1, false⟩, true⟩) =
      DubboInvoker.Destroy ⟨false, false, true, ⟨1, false⟩, true⟩) ∧
    (DubboInvoker.Destroy ⟨false, false, true, ⟨1, false⟩, true⟩).clientState.activeNumber =
      1 - 1 ∧
    ((DubboInvoker.Destroy ⟨false, false, true, ⟨1, false⟩, true⟩).poolHasEntry = false ∧
      (DubboInvoker.Destroy ⟨false, false, true, ⟨1, false⟩, true⟩).clientState.closed = true) := by
  obtain ⟨h1, h2, h3⟩ :=
    destroy_exactly_once ⟨false, false, true, ⟨1, false⟩, true⟩ 0
  obtain ⟨ha, hb, hc, hd, he⟩ := h3 rfl rfl
  exact ⟨h1, ha, (he rfl rfl).mpr (by decide)⟩

/-- C8: apolloConfiguration.PublishConfig fails with the
unsupported-operation error for every (key, group, value) input and leaves
the configuration store untouched. -/
theorem apollo_publish_unsupported (configs : List (String × List Nat))
    (key group value : String) :
    apolloPublishConfig configs key group value = (configs, some "unsupport operation") := rfl

/-- The method-level timeout override parameter that getTimeout consults:
methods.<resolved method name>.timeout (the method name taken from the first
argument under the generic flag). -/
def methodTimeoutStr (di : DubboInvoker) (inv : RPCInvocation) : String :=
  let methodName :=
    if di.url.getParamBool GENERIC_KEY false then
      match inv.arguments with
      | a :: _ => a
      | [] => ""
    else inv.methodName
  di.url.getParam (METHOD_KEYS ++ "." ++ methodName ++ "." ++ TIMEOUT_KEY) ""

theorem getTimeout_fst (pd : String → Option Int) (di : DubboInvoker)
    (inv : RPCInvocation) :
    (DubboInvoker.getTimeout pd di inv).1 =
      (if (methodTimeoutStr di inv).length ≠ 0 then
        match pd (methodTimeoutStr di inv) with
        | some t => t
        | none => di.timeout
      else di.timeout) := by
  simp only [DubboInvoker.getTimeout, methodTimeoutStr]
  repeat' split
  all_goals simp_all

/-- C3: the timeout cascade of DubboInvoker.getTimeout: when the
methods.<methodName>.timeout URL parameter is present and parses as a
duration, that duration is resolved; otherwise the invoker's service-level
timeout is; either way the resolved value's millisecond count is recorded
into the invocation's attachments as a decimal string, so the attachment map
ends up holding the effective timeout. NewDubboInvoker computes the
service-level timeout as the consumer default overridden by the URL's
timeout parameter. -/
theorem getTimeout_cascade (pd : String → Option Int) (di : DubboInvoker)
    (inv : RPCInvocation) (url : URL) (rt : Int) :
    ((DubboInvoker.getTimeout pd di inv).2.attachments.lookup TIMEOUT_KEY =
        some (toString (timeMilliseconds (DubboInvoker.getTimeout pd di inv).1))) ∧
    (∀ t, (methodTimeoutStr di inv).length ≠ 0 → pd (methodTimeoutStr di inv) = some t →
      (DubboInvoker.getTimeout pd di inv).1 = t) ∧
    ((methodTimeoutStr di inv).length = 0 ∨ pd (methodTimeoutStr di inv) = none →
      (DubboInvoker.getTimeout pd di inv).1 = di.timeout) ∧
    (pd (url.getParam TIMEOUT_KEY "") = none → (NewDubboInvoker pd url rt).timeout = rt) ∧
    (∀ t, pd (url.getParam TIMEOUT_KEY "") = some t →
      (NewDubboInvoker pd url rt).timeout = t) := by
  refine ⟨?_, ?_, ?_, ?_, ?_⟩
  · rw [getTimeout_records]
    simp [RPCInvocation.setAttachments, mapSet, List.lookup]
  · intro t hlen hpd
    rw [getTimeout_fst, if_pos hlen, hpd]
  · intro h
    rw [getTimeout_fst]
    rcases h with h | h
    · rw [if_neg (by simp [h])]
    · split
      · rw [h]
      · rfl
  · intro h
    simp [NewDubboInvoker, URL.getParamDuration, h]
  · intro t h
    simp [NewDubboInvoker, URL.getParamDuration, h]

/-- Sample data for the timeout-cascade witness: service-level timeout 5s
from the URL's timeout parameter, method-level override 200ms for foo. -/
def urlC3 : URL :=
  ⟨"127.0.0.1:20000",
   [("interface", "com.x.Demo"), ("methods.foo.timeout", "200ms"), ("timeout", "5s")]⟩

def diC3 : DubboInvoker := NewDubboInvoker pdSample urlC3 3000000000

def invFoo : RPCInvocation := ⟨"foo", [], [], ReplySlot.unpopulated, false⟩

def invBar : RPCInvocation := ⟨"bar", [], [], ReplySlot.unpopulated, false⟩

/-- C3 witness: method foo resolves to 200ms recorded as attachment "200";
method bar falls back to the 5s service-level timeout recorded as "5000";
the constructor overrode the 3s consumer default with the URL's 5s. -/
theorem getTimeout_cascade_witness :
    (DubboInvoker.getTimeout pdSample diC3 invFoo).1 = 200000000 ∧
    (DubboInvoker.getTimeout pdSample diC3 invFoo).2.attachments.lookup TIMEOUT_KEY =
      some "200" ∧
    (DubboInvoker.getTimeout pdSample diC3 invBar).1 = diC3.timeout ∧
    (DubboInvoker.getTimeout pdSample diC3 invBar).2.attachments.lookup TIMEOUT_KEY =
      some "5000" ∧
    (NewDubboInvoker pdSample urlC3 3000000000).timeout = 5000000000 := by
  obtain ⟨l1, c1, f1, n1, n2⟩ := getTimeout_cascade pdSample diC3 invFoo urlC3 3000000000
  obtain ⟨l2, c2, f2, _, _⟩ := getTimeout_cascade pdSample diC3 invBar urlC3 3000000000
  have hfoo := c1 200000000 (by decide) (by decide)
  have hbar := f2 (Or.inr (by decide))
  refine ⟨hfoo, ?_, hbar, ?_, n2 5000000000 (by decide)⟩
  · rw [l1, hfoo]
    decide
  · rw [l2, hbar]
    decide

theorem setAttachments_reply (inv : RPCInvocation) (k v : String) :
    (inv.setAttachments k v).reply = inv.reply := rfl

theorem setAttachments_callback (inv : RPCInvocation) (k v : String) :
    (inv.setAttachments k v).callbackTyped = inv.callbackTyped := rfl

theorem invoke_guards_pass (pd : String → Option Int) (di : DubboInvoker)
    (cb : ClientBehavior) (ca : List (String × String)) (inv : RPCInvocation) :
    DubboInvoker.Invoke pd di true (some cb) true ca inv =
      di.invokeDispatch pd cb ca inv := rfl

theorem invokeDispatch_dispatched (pd : String → Option Int) (di : DubboInvoker)
    (cb : ClientBehavior) (ca : List (String × String)) (inv : RPCInvocation) :
    (di.invokeDispatch pd cb ca inv).dispatched =
      (if asyncFlag (di.populateAttachments ca inv) then
        (if inv.callbackTyped then some DispatchOp.asyncRequest else some DispatchOp.send)
      else if inv.reply = ReplySlot.nil then none else some DispatchOp.request) := by
  simp only [DubboInvoker.invokeDispatch, getTimeout_records, setAttachments_reply,
    setAttachments_callback, populate_reply, populate_callback]
  repeat' split
  all_goals simp_all

/-- C4: with the guards passed, Invoke selects its call mode from the async
attachment flag: async with a callback of the expected type dispatches
AsyncRequest; async without one dispatches the fire-and-forget Send and
returns with the reply slot untouched; non-async dispatches the blocking
Request (or nothing when the reply slot is nil). The flag defaults to false
when the attachment is absent, and a parse failure is treated as false. -/
theorem invoke_async_mode (pd : String → Option Int) (di : DubboInvoker)
    (cb : ClientBehavior) (ca : List (String × String)) (inv : RPCInvocation) :
    ((DubboInvoker.Invoke pd di true (some cb) true ca inv).dispatched =
      (if asyncFlag (di.populateAttachments ca inv) then
        (if inv.callbackTyped then some DispatchOp.asyncRequest else some DispatchOp.send)
      else if inv.reply = ReplySlot.nil then none else some DispatchOp.request)) ∧
    (asyncFlag (di.populateAttachments ca inv) = true → inv.callbackTyped = false →
      (DubboInvoker.Invoke pd di true (some cb) true ca inv).err =
          Option.map InvokeErr.transport cb.sendErr ∧
        (DubboInvoker.Invoke pd di true (some cb) true ca inv).replyAfter = inv.reply) ∧
    ((di.populateAttachments ca inv).attachments.lookup ASYNC_KEY = none →
      asyncFlag (di.populateAttachments ca inv) = false) ∧
    (strconvParseBool ((di.populateAttachments ca inv).attachmentsByKey ASYNC_KEY "false") =
        none →
      asyncFlag (di.populateAttachments ca inv) = false) := by
  refine ⟨?_, ?_, ?_, ?_⟩
  · rw [invoke_guards_pass, invokeDispatch_dispatched]
  · intro ha hc
    rw [invoke_guards_pass]
    simp only [DubboInvoker.invokeDispatch, getTimeout_records, setAttachments_reply,
      setAttachments_callback, populate_reply, populate_callback, ha, hc]
    simp
  · intro h
    simp only [asyncFlag, RPCInvocation.attachmentsByKey, h]
    decide
  · intro h
    simp [asyncFlag, h]

/-- Sample data for the call-mode witnesses. -/
def urlC4 : URL := ⟨"127.0.0.1:20000", [("interface", "com.x.Demo")]⟩

def diC4 : DubboInvoker := NewDubboInvoker pdSample urlC4 3000000000

def invAsyncNoCb : RPCInvocation :=
  ⟨"foo", [], [("async", "true")], ReplySlot.unpopulated, false⟩

def invAsyncCb : RPCInvocation :=
  ⟨"foo", [], [("async", "true")], ReplySlot.unpopulated, true⟩

def invBadAsync : RPCInvocation :=
  ⟨"foo", [], [("async", "yes")], ReplySlot.unpopulated, false⟩

def cbOk : ClientBehavior := ⟨none, none, none, "pong"⟩

/-- C4 witness: async with a typed callback goes out via AsyncRequest; async
without one goes out via Send leaving the reply slot untouched; an
unparseable async attachment resolves the flag to false. -/
theorem invoke_async_mode_witness :
    (DubboInvoker.Invoke pdSample diC4 true (some cbOk) true [] invAsyncCb).dispatched =
      some DispatchOp.asyncRequest ∧
    (DubboInvoker.Invoke pdSample diC4 true (some cbOk) true [] invAsyncNoCb).dispatched =
      some DispatchOp.send ∧
    (DubboInvoker.Invoke pdSample diC4 true (some cbOk) true [] invAsyncNoCb).replyAfter =
      invAsyncNoCb.reply ∧
    asyncFlag (diC4.populateAttachments [] invBadAsync) = false := by
  obtain ⟨d1, _, _, _⟩ := invoke_async_mode pdSample diC4 cbOk [] invAsyncCb
  obtain ⟨d2, s2, _, _⟩ := invoke_async_mode pdSample diC4 cbOk [] invAsyncNoCb
  obtain ⟨_, _, _, p3⟩ := invoke_async_mode pdSample diC4 cbOk [] invBadAsync
  have h2 := s2 (by decide) rfl
  refine ⟨?_, ?_, h2.2, p3 (by decide)⟩
  · rw [d1]
    decide
  · rw [d2]
    decide

/-- C5: with the guards passed and the async flag false, a nil reply slot
yields NoReplyError with nothing dispatched to the Exchange Client; a
non-nil reply slot dispatches the blocking Request, and on success the
result carries the populated reply. -/
theorem invoke_sync_reply (pd : String → Option Int) (di : DubboInvoker)
    (cb : ClientBehavior) (ca : List (String × String)) (inv : RPCInvocation)
    (h : asyncFlag (di.populateAttachments ca inv) = false) :
    ((DubboInvoker.Invoke pd di true (some cb) true ca inv).dispatched =
      if inv.reply = ReplySlot.nil then none else some DispatchOp.request) ∧
    ((DubboInvoker.Invoke pd di true (some cb) true ca inv).err =
      if inv.reply = ReplySlot.nil then some InvokeErr.noReply
      else Option.map InvokeErr.transport cb.requestErr) ∧
    ((DubboInvoker.Invoke pd di true (some cb) true ca inv).rest =
      if inv.reply = ReplySlot.nil then ReplySlot.nil
      else if cb.requestErr = none then ReplySlot.populated cb.requestReply
      else ReplySlot.nil) ∧
    ((DubboInvoker.Invoke pd di true (some cb) true ca inv).replyAfter =
      if inv.reply = ReplySlot.nil then inv.reply
      else if cb.requestErr = none then ReplySlot.populated cb.requestReply
      else inv.reply) := by
  rw [invoke_guards_pass]
  simp only [DubboInvoker.invokeDispatch, getTimeout_records, setAttachments_reply,
    setAttachments_callback, populate_reply, populate_callback, h]
  repeat' split
  all_goals simp_all

def invNilReply : RPCInvocation := ⟨"foo", [], [], ReplySlot.nil, false⟩

/-- C5 witness: a synchronous call with a nil reply slot fails with
NoReplyError and never reaches the client; with a reply slot the blocking
Request runs and the result carries the populated reply. -/
theorem invoke_sync_reply_witness :
    (DubboInvoker.Invoke pdSample diC4 true (some cbOk) true [] invNilReply).err =
      some InvokeErr.noReply ∧
    (DubboInvoker.Invoke pdSample diC4 true (some cbOk) true [] invNilReply).dispatched =
      none ∧
    (DubboInvoker.Invoke pdSample diC4 true (some cbOk) true [] invFoo).dispatched =
      some DispatchOp.request ∧
    (DubboInvoker.Invoke pdSample diC4 true (some cbOk) true [] invFoo).rest =
      ReplySlot.populated "pong" := by
  obtain ⟨d1, e1, _, _⟩ := invoke_sync_reply pdSample diC4 cbOk [] invNilReply (by decide)
  obtain ⟨d2, _, r2, _⟩ := invoke_sync_reply pdSample diC4 cbOk [] invFoo (by decide)
  refine ⟨?_, ?_, ?_, ?_⟩
  · rw [e1]
    decide
  · rw [d1]
    decide
  · rw [d2]
    decide
  · rw [r2]
    decide

/-- C6 counterexample: with no group option the governance-rule key is split
only at its final dot, keeping the earlier dots, so it does not resolve to
the all-slash segments "org/apache/dubbo/DemoService/configurators" the
claim names. -/
theorem zk_resolve_governance_counterexample :
    zkResolveKey "" "org.apache.dubbo.DemoService.configurators" ≠
      some "org/apache/dubbo/DemoService/configurators" := by decide

/-- C6 (amended): with a non-empty group option the fetched path is
rootPath/group/key (shown through GetProperties hitting exactly that stored
path); with no group the key is split at its final dot into exactly two
segments, so "org.apache.dubbo.DemoService.configurators" resolves to
"org.apache.dubbo.DemoService/configurators", and group "dubbo" with key
"dubbo.properties" resolves to "dubbo/dubbo.properties". -/
theorem zk_resolve_paths (group key rootPath : String) (v : List Nat)
    (hg : group.length ≠ 0) :
    zkResolveKey group key = some (group ++ "/" ++ key) ∧
    zkGetProperties ⟨rootPath, false⟩ [(rootPath ++ "/" ++ group ++ "/" ++ key, v)]
      key group = GetResult.ok v ∧
    zkResolveKey "" "org.apache.dubbo.DemoService.configurators" =
      some "org.apache.dubbo.DemoService/configurators" ∧
    zkResolveKey "dubbo" "dubbo.properties" = some "dubbo/dubbo.properties" := by
  have h1 : zkResolveKey group key = some (group ++ "/" ++ key) := by
    simp [zkResolveKey, hg]
  have hp : rootPath ++ "/" ++ group ++ "/" ++ key =
      rootPath ++ "/" ++ (group ++ "/" ++ key) := by
    simp [String.append_assoc]
  refine ⟨h1, ?_, by decide, by decide⟩
  simp [zkGetProperties, h1, hp, List.lookup]

/-- C6 witness: the startup-config fetch with group dubbo and key
dubbo.properties hits the stored path rootPath/dubbo/dubbo.properties. -/
theorem zk_resolve_paths_witness :
    zkResolveKey "dubbo" "dubbo.properties" = some ("dubbo" ++ "/" ++ "dubbo.properties") ∧
    zkGetProperties ⟨"/dubbo/config", false⟩
      [("/dubbo/config" ++ "/" ++ "dubbo" ++ "/" ++ "dubbo.properties", [49])]
      "dubbo.properties" "dubbo" = GetResult.ok [49] := by
  obtain ⟨h1, h2, _, _⟩ :=
    zk_resolve_paths "dubbo" "dubbo.properties" "/dubbo/config" [49] (by decide)
  exact ⟨h1, h2⟩

/-- C7: the zookeeper content transform is uniform on read and write: a
GetProperties whose resolved path equals the path PublishConfig wrote to
returns the original value, whether the base64 flag is on (the store holds
the encoding, the read decodes it) or off; and with the flag off the store
holds the published value verbatim (pass-through on both sides). -/
theorem zk_publish_get_roundtrip (c : ZkDynConfig) (store : List (String × List Nat))
    (pkey pgroup gkey ggroup k : String) (value : List Nat)
    (hv : ∀ b ∈ value, b < 256)
    (hk : zkResolveKey ggroup gkey = some k)
    (hpath : c.rootPath ++ "/" ++ k = c.getPath pkey pgroup) :
    zkGetProperties c (zkPublishConfig c store pkey pgroup value) gkey ggroup =
      GetResult.ok value ∧
    (c.base64Enabled = false →
      (zkPublishConfig c store pkey pgroup value).lookup (c.getPath pkey pgroup) =
        some value) := by
  constructor
  · cases hb : c.base64Enabled with
    | false =>
      simp only [zkGetProperties, hk, hpath, zkPublishConfig, hb]
      simp [List.lookup]
    | true =>
      simp only [zkGetProperties, hk, hpath, zkPublishConfig, hb]
      simp [List.lookup, base64_decode_encode value hv]
  · intro hb
    simp [zkPublishConfig, hb, List.lookup]

/-- C7 witness: publishing the bytes "hi" at (dubbo.properties, dubbo) and
reading them back through the same resolved path returns "hi" with the
base64 flag on and with it off; with the flag off the store holds the raw
bytes. -/
theorem zk_publish_get_roundtrip_witness :
    zkGetProperties ⟨"/dubbo/config", true⟩
      (zkPublishConfig ⟨"/dubbo/config", true⟩ [] "dubbo.properties" "dubbo" [104, 105])
      "dubbo.properties" "dubbo" = GetResult.ok [104, 105] ∧
    zkGetProperties ⟨"/dubbo/config", false⟩
      (zkPublishConfig ⟨"/dubbo/config", false⟩ [] "dubbo.properties" "dubbo" [104, 105])
      "dubbo.properties" "dubbo" = GetResult.ok [104, 105] ∧
    (zkPublishConfig ⟨"/dubbo/config", false⟩ [] "dubbo.properties" "dubbo"
      [104, 105]).lookup
      (ZkDynConfig.getPath ⟨"/dubbo/config", false⟩ "dubbo.properties" "dubbo") =
      some [104, 105] := by
  obtain ⟨g1, _⟩ := zk_publish_get_roundtrip ⟨"/dubbo/config", true⟩ [] "dubbo.properties"
    "dubbo" "dubbo.properties" "dubbo" "dubbo/dubbo.properties" [104, 105]
    (by decide) (by decide) (by decide)
  obtain ⟨g2, p2⟩ := zk_publish_get_roundtrip ⟨"/dubbo/config", false⟩ [] "dubbo.properties"
    "dubbo" "dubbo.properties" "dubbo" "dubbo/dubbo.properties" [104, 105]
    (by decide) (by decide) (by decide)
  exact ⟨g1, g2, p2 rfl⟩

/-- C9: with no group option and a key containing no dot,
zookeeperDynamicConfiguration.GetProperties reaches the slice-bounds panic
(strings.LastIndex yields -1, making key[0:-1] out of range) instead of
returning any error value; the branch is reachable from the public
GetProperties for every store. -/
theorem zk_get_no_dot_panics (c : ZkDynConfig) (store : List (String × List Nat))
    (key : String) (h : '.' ∉ key.toList) :
    zkGetProperties c store key "" = GetResult.panic ∧ zkResolveKey "" key = none := by
  have hr : zkResolveKey "" key = none := by
    have hn := lastIndexOfChar_eq_none key.toList '.' h
    simp only [String.toList] at hn
    simp [zkResolveKey, hn]
  exact ⟨by simp [zkGetProperties, hr], hr⟩

/-- C9 witness: the dotless key "nodot" panics in GetProperties. -/
theorem zk_get_no_dot_panics_witness :
    zkGetProperties ⟨"/dubbo/config", false⟩ [] "nodot" "" = GetResult.panic :=
  (zk_get_no_dot_panics ⟨"/dubbo/config", false⟩ [] "nodot" (by decide)).1

/-- C10: apolloConfiguration.GetProperties removes the first 8 bytes of the
fetched content unconditionally: every content of length at least 8, whether
or not it starts with the content= prefix, yields the content minus its
first 8 bytes, and every content of length 1 through 7 hits the slice-bounds
panic of b[8:]. -/
theorem apollo_get_strip_eight (ns key : String) (configs : List (String × List Nat))
    (content : List Nat)
    (hl : configs.lookup (if key = "" then ns else key) = some content) :
    (8 ≤ content.length →
      apolloGetProperties ns configs key = GetResult.ok (content.drop 8)) ∧
    (1 ≤ content.length → content.length < 8 →
      apolloGetProperties ns configs key = GetResult.panic) := by
  constructor
  · intro h8
    simp only [apolloGetProperties, hl]
    rw [if_neg (by omega), if_neg (by omega)]
  · intro h1 h7
    simp only [apolloGetProperties, hl]
    rw [if_neg (by omega), if_pos h7]

/-- C10 witness: the stored bytes of "content=xy" come back as "xy" (the
prefix stripped), while a 3-byte content panics. -/
theorem apollo_get_strip_eight_witness :
    apolloGetProperties "ns" [("k", [99, 111, 110, 116, 101, 110, 116, 61, 120, 121])] "k" =
      GetResult.ok [120, 121] ∧
    apolloGetProperties "ns" [("k2", [1, 2, 3])] "k2" = GetResult.panic := by
  obtain ⟨o1, _⟩ := apollo_get_strip_eight "ns" "k"
    [("k", [99, 111, 110, 116, 101, 110, 116, 61, 120, 121])]
    [99, 111, 110, 116, 101, 110, 116, 61, 120, 121] (by decide)
  obtain ⟨_, o2⟩ := apollo_get_strip_eight "ns" "k2" [("k2", [1, 2, 3])] [1, 2, 3] (by decide)
  constructor
  · rw [o1 (by decide)]
    decide
  · exact o2 (by decide) (by decide)
